import Mathlib

/-!
# Verification of the concurrent-vacation validator (Urlaubsplaner backend)

Shallow embedding of the core logic of `src/backend/server.py`:

* `calculate_business_days` (server.py lines 82-95);
* `check_concurrent_vacations` (server.py lines 104-178), the concurrency
  validator, here made a pure function of the database snapshot it reads
  (the overlapping vacation entries and the employee head count) and of the
  `CompanySettings` record it constructs (line 159; the Python object always
  carries the defaults 30 / None, the Lean definition takes the record as a
  parameter so that claims quantifying over capacity rules can be stated).

Calendar dates are embedded as the number of days since 1970-01-01
(`daysFromCivil` converts a civil date to that number); Python's
`date.weekday()` (Monday = 0 .. Sunday = 6) becomes `weekday`, using the
fact that 1970-01-01 was a Thursday.  Iterating `current_date` from
`start_date` to `end_date` inclusive (the `while current_date <= end_date`
loops) becomes folding over `dayList start end`.

The float expressions of lines 165 and 169 are modelled bit-exactly:
a non-negative IEEE-754 double is a pair (m, e) with value m·2^e and a
53-bit significand, and `roundFrac` performs the round-to-nearest,
ties-to-even rounding of an exact fraction to such a pair.  This captures
CPython's correctly rounded int/int true division, its int→float
conversion, float·float multiplication, truncation by `int()`, and the
exact decimal rounding performed by `round(x, 1)` on a double (whose
result is represented here by the exact decimal it denotes, in tenths).
The model therefore reproduces the float artefacts of the program, e.g.
`int((29/100)*100) = 28` and `round((1/2000)*100, 1) = 0.1`, both of which
differ from exact rational arithmetic (29 and 0.0); `roundTo1` is the
exact-rational rounding that the specification's wording describes, kept
for comparison with the program's float behaviour.  The float model is
faithful below the double overflow threshold (CPython raises OverflowError
when converting an int ≥ 2^1024 to float; such head counts are outside the
modelled range).
-/

set_option maxRecDepth 100000

/-- Bit length of a natural number, by fuel recursion (fuel 4096 covers
every number below 2^4096; the recursion only descends `bitLen n` steps). -/
def bitLenAux : Nat → Nat → Nat
  | 0, _ => 0
  | fuel + 1, n => if n = 0 then 0 else bitLenAux fuel (n / 2) + 1

/-- Bit length: 0 for 0, and ⌊log₂ n⌋ + 1 for n ≥ 1. -/
def bitLen (n : Nat) : Nat := bitLenAux 4096 n

/-- Round the non-negative fraction a/b to the nearest IEEE-754 double
(round to nearest, ties to even, 53 significant bits), returned as a
significand-exponent pair (m, e) with value m·2^e; for a ≠ 0 the
significand satisfies 2^52 ≤ m ≤ 2^53.  This is CPython's correctly
rounded int/int true division. -/
def roundFrac (a b : Nat) : Nat × Int :=
  if a = 0 ∨ b = 0 then (0, 0)
  else
    let k : Int := (bitLen a : Int) - (bitLen b : Int)
    let big : Bool :=
      if 0 ≤ k then decide (b * 2 ^ k.toNat ≤ a) else decide (b ≤ a * 2 ^ (-k).toNat)
    let E : Int := if big then k - 52 else k - 53
    let AB : Nat × Nat := if 0 ≤ E then (a, b * 2 ^ E.toNat) else (a * 2 ^ (-E).toNat, b)
    let n := AB.1 / AB.2
    let r := AB.1 % AB.2
    let m :=
      if 2 * r < AB.2 then n
      else if AB.2 < 2 * r then n + 1
      else if n % 2 = 0 then n else n + 1
    (m, E)

/-- Round the dyadic value M·2^E to a double. -/
def roundDyadic (M : Nat) (E : Int) : Nat × Int :=
  if 0 ≤ E then roundFrac (M * 2 ^ E.toNat) 1 else roundFrac M (2 ^ (-E).toNat)

/-- IEEE-754 double multiplication: the exact product, rounded once. -/
def floatMulD (x y : Nat × Int) : Nat × Int := roundDyadic (x.1 * y.1) (x.2 + y.2)

/-- CPython's int→float conversion (rounds to nearest for n ≥ 2^53). -/
def floatOfNat (t : Nat) : Nat × Int := roundFrac t 1

/-- Python `int()` on a non-negative double: truncation, i.e. floor. -/
def floatTrunc (x : Nat × Int) : Nat :=
  if 0 ≤ x.2 then x.1 * 2 ^ x.2.toNat else x.1 / 2 ^ (-x.2).toNat

/-- `int((p / 100) * t)` exactly as CPython evaluates server.py line 165:
`p / 100` is the correctly rounded double quotient, `t` is converted to
double, the product is rounded once, and `int()` truncates.  Cross-checked
against CPython; reproduces e.g. `int((29/100)*100) = 28`. -/
def floatPctCap (p t : Nat) : Nat :=
  floatTrunc (floatMulD (roundFrac p 100) (floatOfNat t))

/-- `round((peak / max(total, 1)) * 100, 1)` exactly as CPython evaluates
server.py line 169, returned in tenths: the quotient is the correctly
rounded double, the multiplication by 100 is rounded once, and Python's
`round(x, 1)` performs exact decimal rounding (ties to even) of the
resulting double's exact binary value.  Cross-checked against CPython;
reproduces e.g. `round((1/2000)*100, 1) = 0.1`. -/
def pctTenths (peak total : Nat) : Nat :=
  let x := floatMulD (roundFrac peak (max total 1)) (floatOfNat 100)
  if 0 ≤ x.2 then x.1 * 2 ^ x.2.toNat * 10
  else
    let den := 2 ^ (-x.2).toNat
    let num := x.1 * 10
    let n := num / den
    let r := num % den
    if 2 * r < den then n else if den < 2 * r then n + 1 else if n % 2 = 0 then n else n + 1

/-- Days since 1970-01-01 of the civil date y-m-d (Gregorian calendar),
for dates from 1970-01-01 on.  Standard era-based algorithm: all divisions are
Nat (floor) divisions and all inputs of interest keep every subtraction
non-truncating. -/
def daysFromCivil (y m d : Nat) : Nat :=
  let y' := if m ≤ 2 then y - 1 else y
  let era := y' / 400
  let yoe := y' % 400
  let mp := (m + 9) % 12
  let doy := (153 * mp + 2) / 5 + d - 1
  let doe := yoe * 365 + yoe / 4 - yoe / 100 + doy
  era * 146097 + doe - 719468

/-- Python `date.weekday()`: Monday = 0 .. Sunday = 6.  Day 0 (1970-01-01)
was a Thursday. -/
def weekday (d : Nat) : Nat := (d + 3) % 7

/-- `current_date.weekday() < 5` (server.py lines 91 and 133). -/
def isBusinessDay (d : Nat) : Bool := weekday d < 5

/-- The days visited by `while current_date <= end_date`, i.e.
s, s+1, ..., e (empty when e < s). -/
def dayList (s e : Nat) : List Nat := (List.range (e + 1 - s)).map (s + ·)

/-- `calculate_business_days` (server.py lines 82-95): walk every day of
the inclusive range, adding 1 on Monday-Friday days. -/
def calculate_business_days (s e : Nat) : Nat :=
  (dayList s e).foldl (fun acc d => if isBusinessDay d then acc + 1 else acc) 0

/-- `VacationType` (server.py lines 29-32). -/
inductive VacationType
  | URLAUB
  | KRANKHEIT
  | SONDERURLAUB
deriving DecidableEq, Repr

/-- The fields of a stored vacation entry that `check_concurrent_vacations`
reads (server.py lines 59-68, 113-148): id, date range, category. -/
structure VacationEntry where
  id : String
  start_date : Nat
  end_date : Nat
  vacation_type : VacationType
deriving DecidableEq, Repr

/-- `CompanySettings` (server.py lines 77-79). -/
structure CompanySettings where
  max_concurrent_percentage : Nat := 30
  max_concurrent_fixed : Option Nat := none
deriving DecidableEq, Repr

/-- The dict returned by `check_concurrent_vacations` (server.py
lines 171-178). -/
structure ConcurrencyVerdict where
  is_valid : Bool
  max_concurrent_count : Nat
  max_allowed : Nat
  max_concurrent_day : Option Nat
  percentage : ℚ
  total_employees : Nat
deriving DecidableEq, Repr

/-- The Mongo overlap query of server.py lines 113-122: keep entries with
`start_date <= end`, `end_date >= start` and type URLAUB; when
`exclude_entry_id` is truthy (Python: a non-None, non-empty string) also
require `id != exclude_entry_id`. -/
def overlapFilter (s e : Nat) (ex : Option String) (v : VacationEntry) : Bool :=
  v.start_date ≤ e && s ≤ v.end_date && v.vacation_type == VacationType.URLAUB &&
    (match ex with
     | some x => if x = "" then true else v.id != x
     | none => true)

/-- `daily_count` for one day (server.py lines 134-151): the number of
filtered entries whose range contains the day, plus 1 for the candidate. -/
def dailyCount (entries : List VacationEntry) (d : Nat) : Nat :=
  (entries.filter (fun v => v.start_date ≤ d && d ≤ v.end_date)).length + 1

/-- One iteration of the scanning loop of server.py lines 132-157, updating
`(max_concurrent_count, max_concurrent_day)`. -/
def peakStep (entries : List VacationEntry) (acc : Nat × Option Nat) (d : Nat) :
    Nat × Option Nat :=
  if isBusinessDay d then
    let c := dailyCount entries d
    if c > acc.1 then (c, some d) else acc
  else acc

/-- The whole scanning loop of server.py lines 128-157, started from
`(0, None)`. -/
def peakScan (entries : List VacationEntry) (s e : Nat) : Nat × Option Nat :=
  (dayList s e).foldl (peakStep entries) (0, none)

/-- The business days of the inclusive range, in increasing order (the
spec's `businessDaysOf`; these are exactly the days on which the loop of
server.py lines 132-157 does any work). -/
def businessDays (s e : Nat) : List Nat := (dayList s e).filter isBusinessDay

/-- The peak-tracking fold of server.py lines 132-157, abstracted over the
per-day count function and the starting accumulator. -/
def peakCore (f : Nat → Nat) (acc : Nat × Option Nat) (l : List Nat) :
    Nat × Option Nat :=
  l.foldl (fun p d => if f d > p.1 then (f d, some d) else p) acc

/-- `max_allowed` (server.py lines 162-167).  Python truthiness: the first
branch is taken exactly when `max_concurrent_fixed` is a non-None, non-zero
number.  Line 165, `max(1, int((percentage / 100) * total))`, is evaluated
in IEEE-754 double arithmetic, modelled bit-exactly by `floatPctCap`;
this departs from the exact `⌊percentage · total / 100⌋` at some inputs
(29 % of 100 gives 28, not 29). -/
def maxAllowedOf (settings : CompanySettings) (total : Nat) : Nat :=
  if settings.max_concurrent_fixed.getD 0 ≠ 0 then settings.max_concurrent_fixed.getD 0
  else if 0 < total then
    max 1 (floatPctCap settings.max_concurrent_percentage total)
  else 1

/-- Exact-rational rounding to one decimal place, ties to even: the
idealized `round(q, 1)` that the specification's wording describes.  The
program instead rounds a double (see `pctTenths`); the two differ, e.g. at
(1/2000)·100, where the double sits strictly above the exact tie 0.05. -/
def roundTo1 (q : ℚ) : ℚ :=
  let x := q * 10
  let n := ⌊x⌋
  let frac := x - (n : ℚ)
  let r : ℤ :=
    if frac < 1 / 2 then n
    else if 1 / 2 < frac then n + 1
    else if n % 2 = 0 then n else n + 1
  (r : ℚ) / 10

/-- `percentage` (server.py line 169): `round((peak / max(total, 1)) * 100, 1)`
when `total_employees > 0`, else the int constant `0`.  The rounded value
is computed by the double pipeline `pctTenths` and represented by the exact
decimal it denotes. -/
def percentageOf (peak total : Nat) : ℚ :=
  if 0 < total then ((pctTenths peak total : Nat) : ℚ) / 10 else 0

/-- `check_concurrent_vacations` (server.py lines 104-178) as a pure
function of the snapshot it reads: `entries` is the stored vacation-entry
collection, `total` the employee count, `settings` the `CompanySettings`
record of line 159, `ex` the optional `exclude_entry_id`. -/
def check_concurrent_vacations (s e : Nat) (entries : List VacationEntry)
    (total : Nat) (settings : CompanySettings) (ex : Option String) :
    ConcurrencyVerdict :=
  let overlapping := entries.filter (overlapFilter s e ex)
  let peak := peakScan overlapping s e
  let ma := maxAllowedOf settings total
  { is_valid := decide (peak.1 ≤ ma)
    max_concurrent_count := peak.1
    max_allowed := ma
    max_concurrent_day := peak.2
    percentage := percentageOf peak.1 total
    total_employees := total }

/-- 2025-06-16, a Monday. -/
def june16 : Nat := daysFromCivil 2025 6 16

/-- 2025-06-20, a Friday. -/
def june20 : Nat := daysFromCivil 2025 6 20

/-- 2025-01-04, a Saturday. -/
def jan4 : Nat := daysFromCivil 2025 1 4

/-- 2025-01-05, a Sunday. -/
def jan5 : Nat := daysFromCivil 2025 1 5

/-- A stored vacation entry covering 2025-06-16 .. 2025-06-20 (the entries
of the spec's concrete scenarios A and B). -/
def scenarioEntry (i : String) : VacationEntry :=
  ⟨i, june16, june20, VacationType.URLAUB⟩

/-- Five existing entries covering 2025-06-16 .. 2025-06-20 (scenario A). -/
def scenarioFive : List VacationEntry :=
  [scenarioEntry "a1", scenarioEntry "a2", scenarioEntry "a3",
   scenarioEntry "a4", scenarioEntry "a5"]

/-- Six existing entries covering 2025-06-16 .. 2025-06-20 (scenario B). -/
def scenarioSix : List VacationEntry := scenarioFive ++ [scenarioEntry "a6"]

/-- The exact rational-number formula `⌊(p / 100) * t⌋` — the idealized
reading of server.py line 165 — in Nat-division form; used to exhibit
where the program's double computation `floatPctCap` departs from it. -/
theorem floor_percentage (p t : Nat) :
    (⌊(p : ℚ) / 100 * (t : ℚ)⌋).toNat = p * t / 100 := by
  have h : (p : ℚ) / 100 * (t : ℚ) = ((p * t : ℕ) : ℚ) / ((100 : ℕ) : ℚ) := by
    push_cast; ring
  rw [h, Int.floor_toNat, Nat.floor_div_nat, Nat.floor_natCast]

example : june16 = 20255 := by decide
example : weekday june16 = 0 := by decide
example : weekday june20 = 4 := by decide
example : weekday jan4 = 5 := by decide
example : weekday jan5 = 6 := by decide
example : calculate_business_days june16 june20 = 5 := by decide

/-- Membership in the day range visited by the loops. -/
theorem mem_dayList {s e d : Nat} : d ∈ dayList s e ↔ s ≤ d ∧ d ≤ e := by
  simp only [dayList, List.mem_map, List.mem_range]
  constructor
  · rintro ⟨i, hi, rfl⟩; omega
  · rintro ⟨h1, h2⟩; exact ⟨d - s, by omega, by omega⟩

/-- The visited days are strictly increasing. -/
theorem dayList_pairwise (s e : Nat) : (dayList s e).Pairwise (· < ·) :=
  List.Pairwise.map _ (fun _ _ h => by omega) (List.pairwise_lt_range _)

/-- The business days of a range are strictly increasing. -/
theorem businessDays_pairwise (s e : Nat) :
    (businessDays s e).Pairwise (· < ·) :=
  (dayList_pairwise s e).filter _

/-- Membership in the business days of a range. -/
theorem mem_businessDays {s e d : Nat} :
    d ∈ businessDays s e ↔ (s ≤ d ∧ d ≤ e) ∧ isBusinessDay d := by
  simp [businessDays, List.mem_filter, mem_dayList]

/-- An empty day range: the loops do nothing when `end_date < start_date`. -/
theorem dayList_eq_nil {s e : Nat} (h : e < s) : dayList s e = [] := by
  simp only [dayList, List.map_eq_nil_iff, List.range_eq_nil]
  omega

/-- A fold that skips the days failing `p` is the plain fold over the
filtered list. -/
theorem foldl_guard {α : Type} (g : α → Nat → α) (p : Nat → Bool) :
    ∀ (l : List Nat) (acc : α),
      l.foldl (fun a d => if p d then g a d else a) acc =
        (l.filter p).foldl g acc := by
  intro l
  induction l with
  | nil => intro acc; rfl
  | cons a l ih =>
      intro acc
      by_cases h : p a <;> simp [List.filter_cons, h, ih]

/-- The scanning loop of server.py lines 128-157 only does work on business
days: it is the abstract peak fold over `businessDays`. -/
theorem peakScan_eq (en : List VacationEntry) (s e : Nat) :
    peakScan en s e = peakCore (dailyCount en) (0, none) (businessDays s e) := by
  rw [peakScan, businessDays, peakCore, ← foldl_guard]
  rfl

/-- Counting with a guard is the length of the filtered list. -/
theorem foldl_count (p : Nat → Bool) :
    ∀ (l : List Nat) (acc : Nat),
      l.foldl (fun a d => if p d then a + 1 else a) acc =
        acc + (l.filter p).length := by
  intro l
  induction l with
  | nil => intro acc; simp
  | cons a l ih =>
      intro acc
      by_cases h : p a <;> simp [List.filter_cons, h, ih] <;> omega

/-- `calculate_business_days` counts exactly the business days of the
range. -/
theorem calculate_business_days_eq (s e : Nat) :
    calculate_business_days s e = (businessDays s e).length := by
  rw [calculate_business_days, businessDays, foldl_count, Nat.zero_add]

/-- The running maximum of the peak fold. -/
theorem peakCore_fst (f : Nat → Nat) :
    ∀ (l : List Nat) (c : Nat) (od : Option Nat),
      (peakCore f (c, od) l).1 = l.foldl (fun m d => max m (f d)) c := by
  intro l
  induction l with
  | nil => intro c od; rfl
  | cons a l ih =>
      intro c od
      rw [peakCore, List.foldl_cons, List.foldl_cons]
      by_cases h : f a > c
      · rw [if_pos h, ← peakCore, ih, max_eq_right (le_of_lt h)]
      · rw [if_neg h, ← peakCore, ih, max_eq_left (le_of_not_lt h)]

/-- Monotonicity of the running maximum in both the seed and the per-day
count. -/
theorem foldl_max_mono {f g : Nat → Nat} :
    ∀ (l : List Nat) {c c' : Nat}, c ≤ c' → (∀ d ∈ l, f d ≤ g d) →
      l.foldl (fun m d => max m (f d)) c ≤ l.foldl (fun m d => max m (g d)) c' := by
  intro l
  induction l with
  | nil => intro c c' hc _; exact hc
  | cons a l ih =>
      intro c c' hc hfg
      rw [List.foldl_cons, List.foldl_cons]
      exact ih (max_le_max hc (hfg a (List.mem_cons_self a l)))
        (fun d hd => hfg d (List.mem_cons_of_mem a hd))

/-- Full characterisation of the peak fold over a strictly increasing day
list: the accumulator never decreases, the result bounds every per-day
count, and either nothing was ever recorded or the recorded day is the
first day attaining the final maximum. -/
theorem peakCore_spec (f : Nat → Nat) :
    ∀ (l : List Nat), l.Pairwise (· < ·) → ∀ (c : Nat) (od : Option Nat),
      c ≤ (peakCore f (c, od) l).1 ∧
      (∀ d ∈ l, f d ≤ (peakCore f (c, od) l).1) ∧
      (peakCore f (c, od) l = (c, od) ∨
        ∃ d ∈ l, (peakCore f (c, od) l).2 = some d ∧
          f d = (peakCore f (c, od) l).1 ∧ c < (peakCore f (c, od) l).1 ∧
          ∀ d' ∈ l, d' < d → f d' < f d) := by
  intro l
  induction l with
  | nil =>
      intro _ c od
      exact ⟨le_refl c, by simp, Or.inl rfl⟩
  | cons a l ih =>
      intro hpw c od
      have ha : ∀ b ∈ l, a < b := (List.pairwise_cons.mp hpw).1
      have hpl : l.Pairwise (· < ·) := (List.pairwise_cons.mp hpw).2
      by_cases h : f a > c
      · have hstep : peakCore f (c, od) (a :: l) = peakCore f (f a, some a) l := by
          rw [peakCore, List.foldl_cons, if_pos h, peakCore]
        obtain ⟨ih1, ih2, ih3⟩ := ih hpl (f a) (some a)
        rw [hstep]
        refine ⟨le_trans (le_of_lt h) ih1, ?_, ?_⟩
        · intro d hd
          rcases List.mem_cons.mp hd with rfl | hd'
          · exact ih1
          · exact ih2 d hd'
        · rcases ih3 with heq | ⟨d, hd, h2, h3, h4, h5⟩
          · refine Or.inr ⟨a, List.mem_cons_self a l, ?_, ?_, ?_, ?_⟩
            · rw [heq]
            · rw [heq]
            · rw [heq]; exact h
            · intro d' hd' hlt
              rcases List.mem_cons.mp hd' with rfl | hd''
              · omega
              · exact absurd (ha d' hd'') (by omega)
          · refine Or.inr ⟨d, List.mem_cons_of_mem a hd, h2, h3, lt_trans h h4, ?_⟩
            intro d' hd' hlt
            rcases List.mem_cons.mp hd' with rfl | hd''
            · rw [h3]; exact h4
            · exact h5 d' hd'' hlt
      · have hstep : peakCore f (c, od) (a :: l) = peakCore f (c, od) l := by
          rw [peakCore, List.foldl_cons, if_neg h, peakCore]
        obtain ⟨ih1, ih2, ih3⟩ := ih hpl c od
        rw [hstep]
        refine ⟨ih1, ?_, ?_⟩
        · intro d hd
          rcases List.mem_cons.mp hd with rfl | hd'
          · exact le_trans (le_of_not_lt h) ih1
          · exact ih2 d hd'
        · rcases ih3 with heq | ⟨d, hd, h2, h3, h4, h5⟩
          · exact Or.inl heq
          · refine Or.inr ⟨d, List.mem_cons_of_mem a hd, h2, h3, h4, ?_⟩
            intro d' hd' hlt
            rcases List.mem_cons.mp hd' with rfl | hd''
            · rw [h3]; exact lt_of_le_of_lt (le_of_not_lt h) h4
            · exact h5 d' hd'' hlt

/-- Every per-day count is at least 1 (the candidate itself, line 151). -/
theorem dailyCount_pos (entries : List VacationEntry) (d : Nat) :
    1 ≤ dailyCount entries d :=
  Nat.le_add_left 1 _

/-- Projection: the peak count field of the verdict. -/
theorem check_count_eq (s e : Nat) (entries : List VacationEntry) (total : Nat)
    (settings : CompanySettings) (ex : Option String) :
    (check_concurrent_vacations s e entries total settings ex).max_concurrent_count =
      (peakScan (entries.filter (overlapFilter s e ex)) s e).1 := rfl

/-- Projection: the peak day field of the verdict. -/
theorem check_day_eq (s e : Nat) (entries : List VacationEntry) (total : Nat)
    (settings : CompanySettings) (ex : Option String) :
    (check_concurrent_vacations s e entries total settings ex).max_concurrent_day =
      (peakScan (entries.filter (overlapFilter s e ex)) s e).2 := rfl

/-- Projection: the validity flag of the verdict. -/
theorem check_valid_eq (s e : Nat) (entries : List VacationEntry) (total : Nat)
    (settings : CompanySettings) (ex : Option String) :
    (check_concurrent_vacations s e entries total settings ex).is_valid =
      decide ((peakScan (entries.filter (overlapFilter s e ex)) s e).1 ≤
        maxAllowedOf settings total) := rfl

/-- Projection: the allowed-maximum field of the verdict. -/
theorem check_allowed_eq (s e : Nat) (entries : List VacationEntry) (total : Nat)
    (settings : CompanySettings) (ex : Option String) :
    (check_concurrent_vacations s e entries total settings ex).max_allowed =
      maxAllowedOf settings total := rfl

/-- Projection: the percentage field of the verdict. -/
theorem check_percentage_eq (s e : Nat) (entries : List VacationEntry) (total : Nat)
    (settings : CompanySettings) (ex : Option String) :
    (check_concurrent_vacations s e entries total settings ex).percentage =
      percentageOf (peakScan (entries.filter (overlapFilter s e ex)) s e).1 total := rfl

/-- C1: with 20 employees and the default rule (30 %, no fixed cap), five
existing vacation entries covering 2025-06-16..2025-06-20 and candidate
range 2025-06-16..2025-06-20 give peak count 6, maxAllowed 6 and a valid
verdict; with a sixth pre-existing overlapping entry the peak count is 7,
maxAllowed 6, the verdict invalid and the peak day 2025-06-16. -/
theorem claim_C1_scenarios :
    (check_concurrent_vacations june16 june20 scenarioFive 20 {} none).max_concurrent_count = 6 ∧
    (check_concurrent_vacations june16 june20 scenarioFive 20 {} none).max_allowed = 6 ∧
    (check_concurrent_vacations june16 june20 scenarioFive 20 {} none).is_valid = true ∧
    (check_concurrent_vacations june16 june20 scenarioSix 20 {} none).max_concurrent_count = 7 ∧
    (check_concurrent_vacations june16 june20 scenarioSix 20 {} none).max_allowed = 6 ∧
    (check_concurrent_vacations june16 june20 scenarioSix 20 {} none).is_valid = false ∧
    (check_concurrent_vacations june16 june20 scenarioSix 20 {} none).max_concurrent_day =
      some june16 := by
  decide

/-- C2 as stated is false at fixedCap = 0: server.py line 162 tests the
Python truthiness of `max_concurrent_fixed`, so a fixed cap of 0 is treated
exactly like an absent one and the fallback 1 is returned for an empty
company, not the fixed cap 0. -/
theorem claim_C2_counterexample :
    (⟨30, some 0⟩ : CompanySettings).max_concurrent_fixed = some 0 ∧
    (check_concurrent_vacations june16 june16 [] 0 ⟨30, some 0⟩ none).max_allowed = 1 := by
  decide

/-- C2 amended: maxAllowed is the fixed cap whenever one is set and
non-zero; when the fixed cap is absent or set to 0 (which the code treats
as absent), maxAllowed is max(1, int((percentage/100) · totalEmployees))
computed in IEEE-754 double arithmetic for a positive head count below the
double range, and 1 for totalEmployees = 0.  The double computation agrees
with the claimed exact max(1, ⌊percentage/100 · totalEmployees⌋) at the
concrete scenarios of this development (30 % of 20 gives 6 both ways) but
not universally: 29 % of 100 employees gives int(28.999999999999996) = 28,
while the exact floor is 29. -/
theorem claim_C2_max_allowed (s e : Nat) (entries : List VacationEntry)
    (total : Nat) (settings : CompanySettings) (ex : Option String) :
    (∀ c : Nat, settings.max_concurrent_fixed = some c → c ≠ 0 →
      (check_concurrent_vacations s e entries total settings ex).max_allowed = c) ∧
    (settings.max_concurrent_fixed.getD 0 = 0 → total ≤ 2 ^ 1023 →
      (check_concurrent_vacations s e entries total settings ex).max_allowed =
        if 0 < total then max 1 (floatPctCap settings.max_concurrent_percentage total)
        else 1) ∧
    (floatPctCap 29 100 = 28 ∧
      (⌊((29 : Nat) : ℚ) / 100 * ((100 : Nat) : ℚ)⌋).toNat = 29) ∧
    (floatPctCap 30 20 = 6 ∧
      (⌊((30 : Nat) : ℚ) / 100 * ((20 : Nat) : ℚ)⌋).toNat = 6) := by
  refine ⟨?_, ?_, ⟨by decide, ?_⟩, ⟨by decide, ?_⟩⟩
  · intro c hc hc0
    rw [check_allowed_eq, maxAllowedOf, hc]
    simp [hc0]
  · intro h _
    rw [check_allowed_eq, maxAllowedOf]
    simp [h]
  · rw [floor_percentage]
  · rw [floor_percentage]

/-- Witness for C2 amended: 0 employees and the default rule give
maxAllowed 1. -/
theorem claim_C2_witness :
    (check_concurrent_vacations june16 june16 [] 0 ⟨30, none⟩ none).max_allowed = 1 := by
  have h := (claim_C2_max_allowed june16 june16 [] 0 ⟨30, none⟩ none).2.1 rfl (Nat.zero_le _)
  simpa using h

/-- C4 as stated is false: for start > end `calculate_business_days` does
not fail with any error (the Python function has no raise path); the loop
body never runs and the plain value 0 is returned.  Range validation
happens in the HTTP handlers (server.py lines 245-246), not here. -/
theorem claim_C4_counterexample : calculate_business_days june20 june16 = 0 := by
  decide

/-- C4 amended: the function visits exactly the calendar days from start
to end inclusive and returns the count of those whose weekday is
Monday-Friday; for start > end it does not fail but returns 0. -/
theorem claim_C4_count (s e : Nat) :
    (∀ d : Nat, d ∈ dayList s e ↔ s ≤ d ∧ d ≤ e) ∧
    calculate_business_days s e = ((dayList s e).filter isBusinessDay).length ∧
    (e < s → calculate_business_days s e = 0) := by
  refine ⟨fun d => mem_dayList, calculate_business_days_eq s e, fun h => ?_⟩
  rw [calculate_business_days_eq, businessDays, dayList_eq_nil h]
  rfl

/-- Witness for C4 amended at a concrete week and a concrete inverted
range. -/
theorem claim_C4_witness :
    calculate_business_days june16 june20 =
      ((dayList june16 june20).filter isBusinessDay).length ∧
    calculate_business_days june20 june16 = 0 :=
  ⟨(claim_C4_count june16 june20).2.1, (claim_C4_count june20 june16).2.2 (by decide)⟩

/-- C8: the business-day count of a well-formed range is between 0 and the
number of calendar days of the range. -/
theorem claim_C8_bounds (s e : Nat) (h : s ≤ e) :
    0 ≤ calculate_business_days s e ∧ calculate_business_days s e ≤ e - s + 1 := by
  refine ⟨Nat.zero_le _, ?_⟩
  rw [calculate_business_days_eq]
  have h1 : (businessDays s e).length ≤ (dayList s e).length :=
    List.length_filter_le _ _
  have h2 : (dayList s e).length = e + 1 - s := by
    simp [dayList]
  omega

/-- Witness for C8 at the weekend range 2025-01-04..2025-01-05. -/
theorem claim_C8_witness :
    jan4 ≤ jan5 ∧ 0 ≤ calculate_business_days jan4 jan5 ∧
      calculate_business_days jan4 jan5 ≤ jan5 - jan4 + 1 :=
  ⟨by decide, claim_C8_bounds jan4 jan5 (by decide)⟩

/-- C3 as stated is false: the validator itself never returns an error, not
even for start > end.  For the inverted range 2025-06-20..2025-06-16 it
returns a normal verdict — trivially valid, with peak count 0 — instead of
failing; the start-after-end check lives in the HTTP handlers (server.py
lines 245-246), and the head count, a collection count, is never
negative. -/
theorem claim_C3_counterexample :
    (check_concurrent_vacations june20 june16 [] 10 {} none).is_valid = true ∧
    (check_concurrent_vacations june20 june16 [] 10 {} none).max_concurrent_count = 0 ∧
    (check_concurrent_vacations june20 june16 [] 10 {} none).max_allowed = 3 := by
  decide

/-- C3 amended: the validator never raises at all.  A business-rule
violation is exactly a normal verdict with isValid = false (the flag is
false precisely when the peak count exceeds maxAllowed), and a malformed
range start > end yields a normal, trivially valid verdict with peak
count 0 rather than an error. -/
theorem claim_C3_no_error (s e : Nat) (entries : List VacationEntry)
    (total : Nat) (settings : CompanySettings) (ex : Option String) :
    ((check_concurrent_vacations s e entries total settings ex).is_valid = false ↔
      (check_concurrent_vacations s e entries total settings ex).max_allowed <
        (check_concurrent_vacations s e entries total settings ex).max_concurrent_count) ∧
    (e < s →
      (check_concurrent_vacations s e entries total settings ex).is_valid = true ∧
      (check_concurrent_vacations s e entries total settings ex).max_concurrent_count = 0 ∧
      (check_concurrent_vacations s e entries total settings ex).max_concurrent_day = none) := by
  constructor
  · rw [check_valid_eq, check_allowed_eq, check_count_eq]
    simp [Nat.lt_iff_add_one_le]
  · intro h
    rw [check_valid_eq, check_count_eq, check_day_eq, peakScan, dayList_eq_nil h]
    simp

/-- Witness for C3 amended at a concrete inverted range. -/
theorem claim_C3_witness :
    ((check_concurrent_vacations june20 june16 scenarioFive 10 {} none).is_valid = false ↔
      (check_concurrent_vacations june20 june16 scenarioFive 10 {} none).max_allowed <
        (check_concurrent_vacations june20 june16 scenarioFive 10 {} none).max_concurrent_count) ∧
    (check_concurrent_vacations june20 june16 scenarioFive 10 {} none).is_valid = true ∧
    (check_concurrent_vacations june20 june16 scenarioFive 10 {} none).max_concurrent_count = 0 ∧
    (check_concurrent_vacations june20 june16 scenarioFive 10 {} none).max_concurrent_day = none :=
  ⟨(claim_C3_no_error june20 june16 scenarioFive 10 {} none).1,
   (claim_C3_no_error june20 june16 scenarioFive 10 {} none).2 (by decide)⟩

/-- C5 as stated is false for totalEmployees = 0: server.py line 169 sets
the percentage to 0 when `total_employees > 0` fails, whereas the claim
demands round(peakCount / max(0, 1) * 100, 1) = 100 for the peak count 1
reached on any range with a business day. -/
theorem claim_C5_counterexample :
    (check_concurrent_vacations june16 june16 [] 0 {} none).max_concurrent_count = 1 ∧
    (check_concurrent_vacations june16 june16 [] 0 {} none).percentage = 0 ∧
    roundTo1 (((check_concurrent_vacations june16 june16 [] 0 {} none).max_concurrent_count : ℚ) /
      ((max 0 1 : Nat) : ℚ) * 100) = 100 := by
  refine ⟨by decide, ?_, ?_⟩
  · rw [check_percentage_eq, percentageOf]
    simp
  · have h : (check_concurrent_vacations june16 june16 [] 0 {} none).max_concurrent_count = 1 := by
      decide
    rw [h]
    norm_num [roundTo1, show (max 0 1 : Nat) = 1 from rfl]

/-- C5 amended: for a well-formed range the percentage field is
round((peakCount / max(totalEmployees, 1)) * 100, 1 decimal) computed in
IEEE-754 double arithmetic (the pipeline `pctTenths`, whose result is the
exact decimal in tenths) whenever totalEmployees > 0, and the constant 0
(not peakCount * 100 rounded) when totalEmployees = 0.  The double
computation differs from rounding the exact rational: at peakCount 1,
totalEmployees 2000 the program yields 0.1 (the double quotient lands
strictly above the exact tie 0.05) while the exact-rational rounding
yields 0. -/
theorem claim_C5_percentage (s e : Nat) (h : s ≤ e) (entries : List VacationEntry)
    (total : Nat) (settings : CompanySettings) (ex : Option String) :
    ((check_concurrent_vacations s e entries total settings ex).percentage =
      if 0 < total then
        ((pctTenths
          (check_concurrent_vacations s e entries total settings ex).max_concurrent_count
          total : Nat) : ℚ) / 10
      else 0) ∧
    ((pctTenths 1 2000 : Nat) : ℚ) / 10 = 1 / 10 ∧
    roundTo1 ((1 : ℚ) / 2000 * 100) = 0 := by
  refine ⟨?_, ?_, ?_⟩
  · rw [check_percentage_eq, check_count_eq, percentageOf]
  · norm_num [show pctTenths 1 2000 = 1 from by decide]
  · norm_num [roundTo1]

/-- Witness for C5 amended at scenario A. -/
theorem claim_C5_witness :
    ((check_concurrent_vacations june16 june20 scenarioFive 20 {} none).percentage =
      if 0 < 20 then
        ((pctTenths
          (check_concurrent_vacations june16 june20 scenarioFive 20 {} none).max_concurrent_count
          20 : Nat) : ℚ) / 10
      else 0) ∧
    ((pctTenths 1 2000 : Nat) : ℚ) / 10 = 1 / 10 ∧
    roundTo1 ((1 : ℚ) / 2000 * 100) = 0 :=
  claim_C5_percentage june16 june20 (by decide) scenarioFive 20 {} none

/-- C6 as stated is false for the fresh id "" (the empty string): server.py
line 119 `if exclude_entry_id:` treats the empty string as falsy, so no
exclusion clause is added to the query and the added entry X is still
counted, raising the peak from 1 to 2. -/
theorem claim_C6_counterexample :
    check_concurrent_vacations june16 june16
        ([] ++ [⟨"", june16, june16, VacationType.URLAUB⟩]) 20 {} (some "") ≠
      check_concurrent_vacations june16 june16 [] 20 {} none := by
  intro h
  have h2 := congrArg ConcurrencyVerdict.max_concurrent_count h
  revert h2
  decide

/-- C6 amended: for every entry X whose id is fresh AND non-empty,
evaluating L ++ [X] with excludeEntryId = X.id gives a verdict identical in
every field to evaluating L with no exclusion. -/
theorem claim_C6_exclusion (s e : Nat) (L : List VacationEntry) (X : VacationEntry)
    (total : Nat) (settings : CompanySettings)
    (hne : X.id ≠ "") (hfresh : ∀ v ∈ L, v.id ≠ X.id) :
    check_concurrent_vacations s e (L ++ [X]) total settings (some X.id) =
      check_concurrent_vacations s e L total settings none := by
  have h1 : L.filter (overlapFilter s e (some X.id)) = L.filter (overlapFilter s e none) := by
    refine List.filter_congr (fun v hv => ?_)
    simp only [overlapFilter, if_neg hne]
    have hv' : (v.id != X.id) = true := by
      simp [hfresh v hv]
    rw [hv']
  have h2 : [X].filter (overlapFilter s e (some X.id)) = [] := by
    simp [overlapFilter, if_neg hne]
  have hfilter : (L ++ [X]).filter (overlapFilter s e (some X.id)) =
      L.filter (overlapFilter s e none) := by
    rw [List.filter_append, h1, h2, List.append_nil]
  simp only [check_concurrent_vacations, hfilter]

/-- Witness for C6 amended: one kept entry, one freshly added entry with a
non-empty id, excluded again by id. -/
theorem claim_C6_witness :
    check_concurrent_vacations june16 june16
        ([⟨"keep", june16, june16, VacationType.URLAUB⟩] ++
          [⟨"x9", june16, june16, VacationType.URLAUB⟩]) 20 {} (some "x9") =
      check_concurrent_vacations june16 june16
        [⟨"keep", june16, june16, VacationType.URLAUB⟩] 20 {} none :=
  claim_C6_exclusion june16 june16 [⟨"keep", june16, june16, VacationType.URLAUB⟩]
    ⟨"x9", june16, june16, VacationType.URLAUB⟩ 20 {} (by decide) (by decide)

/-- C7: for a well-formed candidate range with at least one business day,
max_concurrent_day is the first business day, in increasing date order,
whose per-day count (filtered entries containing the day, plus 1 for the
candidate) attains the maximum per-day count; earlier business days all
have strictly smaller counts. -/
theorem claim_C7_peak_day (s e : Nat) (entries : List VacationEntry)
    (total : Nat) (settings : CompanySettings) (ex : Option String)
    (hse : s ≤ e) (hbd : businessDays s e ≠ []) :
    ∃ d, (check_concurrent_vacations s e entries total settings ex).max_concurrent_day = some d ∧
      d ∈ businessDays s e ∧
      dailyCount (entries.filter (overlapFilter s e ex)) d =
        (check_concurrent_vacations s e entries total settings ex).max_concurrent_count ∧
      (∀ d' ∈ businessDays s e,
        dailyCount (entries.filter (overlapFilter s e ex)) d' ≤
          (check_concurrent_vacations s e entries total settings ex).max_concurrent_count) ∧
      (∀ d' ∈ businessDays s e, d' < d →
        dailyCount (entries.filter (overlapFilter s e ex)) d' <
          (check_concurrent_vacations s e entries total settings ex).max_concurrent_count) := by
  obtain ⟨h1, h2, h3⟩ := peakCore_spec (dailyCount (entries.filter (overlapFilter s e ex)))
    (businessDays s e) (businessDays_pairwise s e) 0 none
  rw [check_day_eq, check_count_eq, peakScan_eq]
  rcases h3 with heq | ⟨d, hd, hsome, hmax, hpos, hfirst⟩
  · obtain ⟨d0, hd0⟩ := List.exists_mem_of_ne_nil _ hbd
    have hle := h2 d0 hd0
    rw [heq] at hle
    have hge := dailyCount_pos (entries.filter (overlapFilter s e ex)) d0
    simp at hle
    omega
  · refine ⟨d, hsome, hd, hmax, h2, fun d' hd' hlt => ?_⟩
    rw [← hmax]
    exact hfirst d' hd' hlt

/-- Witness for C7 at scenario A: the peak day exists and is first. -/
theorem claim_C7_witness :
    ∃ d, (check_concurrent_vacations june16 june20 scenarioFive 20 {} none).max_concurrent_day =
        some d ∧
      d ∈ businessDays june16 june20 ∧
      dailyCount (scenarioFive.filter (overlapFilter june16 june20 none)) d =
        (check_concurrent_vacations june16 june20 scenarioFive 20 {} none).max_concurrent_count ∧
      (∀ d' ∈ businessDays june16 june20,
        dailyCount (scenarioFive.filter (overlapFilter june16 june20 none)) d' ≤
          (check_concurrent_vacations june16 june20 scenarioFive 20 {} none).max_concurrent_count) ∧
      (∀ d' ∈ businessDays june16 june20, d' < d →
        dailyCount (scenarioFive.filter (overlapFilter june16 june20 none)) d' <
          (check_concurrent_vacations june16 june20 scenarioFive 20 {} none).max_concurrent_count) :=
  claim_C7_peak_day june16 june20 scenarioFive 20 {} none (by decide) (by decide)

/-- C9: a well-formed range all of whose days fall on a weekend has zero
business days and is accepted whatever the stored entries, the head count
and the capacity rule are. -/
theorem claim_C9_weekend (s e : Nat) (hse : s ≤ e)
    (hwk : ∀ d ∈ dayList s e, ¬ (weekday d < 5))
    (entries : List VacationEntry) (total : Nat) (settings : CompanySettings)
    (ex : Option String) :
    calculate_business_days s e = 0 ∧
    (check_concurrent_vacations s e entries total settings ex).is_valid = true := by
  have hnil : businessDays s e = [] := by
    rw [businessDays, List.filter_eq_nil_iff]
    intro d hd
    simp [isBusinessDay, hwk d hd]
  constructor
  · rw [calculate_business_days_eq, hnil]
    rfl
  · rw [check_valid_eq, peakScan_eq, hnil]
    simp [peakCore]

/-- Witness for C9 at the weekend 2025-01-04..2025-01-05, with an entry
overlapping that very weekend, a one-person company and the default rule. -/
theorem claim_C9_witness :
    calculate_business_days jan4 jan5 = 0 ∧
    (check_concurrent_vacations jan4 jan5
      [⟨"w1", jan4, jan5, VacationType.URLAUB⟩] 1 {} none).is_valid = true :=
  claim_C9_weekend jan4 jan5 (by decide) (by decide)
    [⟨"w1", jan4, jan5, VacationType.URLAUB⟩] 1 {} none

/-- C10: adding one more stored entry can only raise the peak count, and
never turns a rejecting verdict into an accepting one. -/
theorem claim_C10_monotone (s e : Nat) (hse : s ≤ e) (L : List VacationEntry)
    (X : VacationEntry) (total : Nat) (settings : CompanySettings) :
    (check_concurrent_vacations s e L total settings none).max_concurrent_count ≤
      (check_concurrent_vacations s e (L ++ [X]) total settings none).max_concurrent_count ∧
    ((check_concurrent_vacations s e L total settings none).is_valid = false →
      (check_concurrent_vacations s e (L ++ [X]) total settings none).is_valid = false) := by
  have hmono : ∀ d, dailyCount (L.filter (overlapFilter s e none)) d ≤
      dailyCount ((L ++ [X]).filter (overlapFilter s e none)) d := by
    intro d
    rw [List.filter_append]
    unfold dailyCount
    rw [List.filter_append, List.length_append]
    omega
  have hpeak : (peakScan (L.filter (overlapFilter s e none)) s e).1 ≤
      (peakScan ((L ++ [X]).filter (overlapFilter s e none)) s e).1 := by
    rw [peakScan_eq, peakScan_eq, peakCore_fst, peakCore_fst]
    exact foldl_max_mono _ (le_refl 0) (fun d _ => hmono d)
  constructor
  · rw [check_count_eq, check_count_eq]
    exact hpeak
  · intro h
    rw [check_valid_eq] at h ⊢
    simp only [decide_eq_false_iff_not, Nat.not_le] at h ⊢
    exact lt_of_lt_of_le h hpeak

/-- Witness for C10: scenario A plus one more entry is scenario B. -/
theorem claim_C10_witness :
    (check_concurrent_vacations june16 june20 scenarioFive 20 {} none).max_concurrent_count ≤
      (check_concurrent_vacations june16 june20 (scenarioFive ++ [scenarioEntry "a6"]) 20 {}
        none).max_concurrent_count ∧
    ((check_concurrent_vacations june16 june20 scenarioFive 20 {} none).is_valid = false →
      (check_concurrent_vacations june16 june20 (scenarioFive ++ [scenarioEntry "a6"]) 20 {}
        none).is_valid = false) :=
  claim_C10_monotone june16 june20 (by decide) scenarioFive (scenarioEntry "a6") 20 {}
